import Mathlib

/-!
Shallow embedding of `src/models/user_model.go` (package `models`) from the
boilerplate-golang-rest-api repository, together with proofs of the spec's
claims about it.

Modelling conventions:
* The `users` table is a `List User` (the row-mapping layer `schema.User` has
  columns `id`, `name`, `email`, `password`, `refresh_token`).
* Go errors are `String`s compared by their message, exactly as the source
  compares `err.Error() == "sql: no rows in result set"`.
* Each Go function is embedded as a Lean function parameterised by the
  driver-level results of the database queries it issues (the `(value, err)`
  pairs sqlboiler returns), so that storage failures can be injected; an
  accompanying `...Run` definition instantiates those parameters with the
  honest results computed from a `DB` state (no storage failure).
* `log.Println err` calls are modelled by a `List String` of logged messages
  returned alongside the result.
* Go `len` on a string counts bytes, embedded as `String.utf8ByteSize`.
-/

namespace UserModel

/-- The `schema.User` row shape: columns `id`, `name`, `email`, `password`,
`refresh_token` (nullable, hence `Option`). -/
structure User where
  id : Int
  name : String
  email : String
  password : String
  refreshToken : Option String
  deriving Repr, DecidableEq

/-- The `users` table state. -/
abbrev DB := List User

/-- The sqlboiler not-found error message, compared against literally in the
source. -/
def noRowsMsg : String := "sql: no rows in result set"

/-- Honest result of `schema.Users(schema.UserWhere.Email.EQ(email)).Exists`:
whether some row has the given email. -/
def existsByEmail (db : DB) (email : String) : Bool :=
  db.any (fun u => u.email = email)

/-- Honest driver pair for the existence-by-email query: the boolean and no
error. On a storage failure `e`, sqlboiler's `Exists` returns its zero value
together with the error, i.e. the pair `(false, some e)`. -/
def existsQuery (db : DB) (email : String) : Bool × Option String :=
  (existsByEmail db email, none)

/-- `validateUserData` from the source, parameterised by the driver pair of
its one query (`existUser, _ := ...Exists(...)`; note the source discards the
error component, which this embedding mirrors by reading only `.1`).
Returns the `(valid, message)` pair. -/
def validateUserData (user : User) (existsQ : Bool × Option String) :
    Bool × String :=
  if user.name = "" then
    (false, "User name cannot be empty!")
  else if user.email = "" then
    (false, "User e-mail cannot be empty!")
  else if user.password = "" then
    (false, "User password cannot be empty!")
  else if user.password.utf8ByteSize < 6 then
    (false, "User password must be at least 6 characters!")
  else
    let existUser := existsQ.1
    if existUser then
      (false, "There is already a registered user with this email, try another email!")
    else
      (true, "")

/-- `validateUserData` run against a database state with honest queries. -/
def validateUserDataRun (db : DB) (user : User) : Bool × String :=
  validateUserData user (existsQuery db user.email)

/-- Column projection of `qm.Select("password")`: sqlboiler binds only the
selected column, the rest of the struct keeps its zero values. -/
def selectPassword (u : User) : User :=
  { id := 0, name := "", email := "", password := u.password, refreshToken := none }

/-- Column projection of selecting `id, name, email`. -/
def selectIdNameEmail (u : User) : User :=
  { id := u.id, name := u.name, email := u.email, password := "", refreshToken := none }

/-- Column projection of `qm.Select("id")`. -/
def selectId (u : User) : User :=
  { id := u.id, name := "", email := "", password := "", refreshToken := none }

/-- Honest result of `.One` on a where-email query: the first matching row, if
any (`LIMIT 1`, no `ORDER BY`). -/
def oneByEmail (db : DB) (email : String) : Option User :=
  db.find? (fun u => u.email = email)

/-- Honest driver pair of
`schema.Users(qm.Select("password"), qm.Where("email=?", email)).One`:
the projected row and no error when a row matches, otherwise nil row and the
not-found error. -/
def onePasswordQuery (db : DB) (email : String) : Option User × Option String :=
  match oneByEmail db email with
  | some u => (some (selectPassword u), none)
  | none => (none, some noRowsMsg)

/-- `Authenticate` from the source, parameterised by the driver pair of its
one query. Result is `((ok, error), loggedMessages)`. -/
def Authenticate (oneQ : Option User × Option String) (password : String) :
    (Bool × Option String) × List String :=
  match oneQ.2 with
  | some e =>
    if e = noRowsMsg then
      ((false, some "not found user by e-mail"), [])
    else
      ((false, some e), [e])
  | none =>
    match oneQ.1 with
    | none => ((false, some "not found user by e-mail"), [])
    | some user =>
      if password ≠ user.password then
        ((false, some "password don't match"), [])
      else
        ((true, none), [])

/-- `Authenticate` run against a database state with honest queries. -/
def AuthenticateRun (db : DB) (email password : String) :
    (Bool × Option String) × List String :=
  Authenticate (onePasswordQuery db email) password

/-- Storage-assigned auto-increment id: one more than the largest id present. -/
def nextId (db : DB) : Int :=
  (db.map User.id).foldr max 0 + 1

/-- Honest effect of `user.Insert(ctx, db, boil.Infer())`: append the row,
with the id assigned by storage. -/
def insertUser (db : DB) (u : User) : DB :=
  db ++ [{ u with id := nextId db }]

/-- Honest result of
`schema.Users(qm.SQL("select id, name, email from users order by id desc")).One`:
a row with the largest id, projected to `id, name, email`. -/
def maxIdUser (db : DB) : Option User :=
  db.foldl
    (fun acc u =>
      match acc with
      | none => some u
      | some v => if u.id > v.id then some u else some v)
    none

/-- `NewUser` from the source, parameterised by the driver pair of the
validation's existence query; the insert and the re-read run honestly against
the state. Result is `((createdUser, error), newState)`. -/
def NewUser (db : DB) (user : User) (existsQ : Bool × Option String) :
    (Option User × Option String) × DB :=
  let v := validateUserData user existsQ
  if !v.1 then
    ((none, some v.2), db)
  else
    let db' := insertUser db user
    match maxIdUser db' with
    | some created => ((some (selectIdNameEmail created), none), db')
    | none => ((none, some noRowsMsg), db')

/-- `NewUser` run against a database state with honest queries. -/
def NewUserRun (db : DB) (user : User) : (Option User × Option String) × DB :=
  NewUser db user (existsQuery db user.email)

/-- `GetAllUsers` from the source: every row, unfiltered. -/
def GetAllUsers (db : DB) : List User × Option String :=
  (db, none)

/-- Honest driver pair of `schema.FindUser(ctx, db, userId, cols...)`: the row
with the given id (first match), or nil row and the not-found error. On a
storage failure `e` the driver returns `(none, some e)`. -/
def findUserQuery (db : DB) (id : Int) : Option User × Option String :=
  match db.find? (fun u => u.id = id) with
  | some u => (some u, none)
  | none => (none, some noRowsMsg)

/-- `GetUserByID` from the source, parameterised by the driver pair of its
`FindUser` call (columns projected to `id, name, email` in the honest run).
Result is `((user, error), loggedMessages)`. -/
def GetUserByID (findQ : Option User × Option String) :
    (Option User × Option String) × List String :=
  match findQ.2 with
  | some e => ((none, some e), [e])
  | none => ((findQ.1, none), [])

/-- `GetUserByID` run against a database state with honest queries. -/
def GetUserByIDRun (db : DB) (id : Int) :
    (Option User × Option String) × List String :=
  GetUserByID
    (match db.find? (fun u => u.id = id) with
     | some u => (some (selectIdNameEmail u), none)
     | none => (none, some noRowsMsg))

/-- `GetUserByToken` from the source: the first row whose `refresh_token`
equals the given token. -/
def GetUserByToken (db : DB) (refreshToken : String) :
    (Option User × Option String) × List String :=
  match db.find? (fun u => u.refreshToken = some refreshToken) with
  | some u => ((some u, none), [])
  | none => ((none, some noRowsMsg), [noRowsMsg])

/-- Number of rows with the given id, as the affected-row count of a
`WHERE id = ?` statement. -/
def countById (db : DB) (id : Int) : Int :=
  ((db.filter (fun u => u.id = id)).length : Int)

/-- Honest effect of `userToUpdate.Update(ctx, db, boil.Whitelist("name", "email"))`:
rows matching the id get the name and email columns written, nothing else. -/
def updateNameEmail (db : DB) (u : User) : DB :=
  db.map (fun r => if r.id = u.id then { r with name := u.name, email := u.email } else r)

/-- Honest effect of `user.Update(ctx, db, boil.Whitelist("refresh_token"))`:
rows matching the id get the refresh_token column written, nothing else. -/
def updateTokenById (db : DB) (id : Int) (tok : Option String) : DB :=
  db.map (fun r => if r.id = id then { r with refreshToken := tok } else r)

/-- Honest effect of `user.Delete(ctx, db)`: rows matching the id are removed. -/
def deleteById (db : DB) (id : Int) : DB :=
  db.filter (fun u => ¬ u.id = id)

/-- `UpdateUser` from the source, parameterised by the driver pairs of its two
statements: `findQ` is the `FindUser` result — the source writes
`user, _ := schema.FindUser(...)`, discarding the error component, which this
embedding mirrors by reading only `findQ.1` — and `updQ` is the update
statement's driver report `((rowsAff, err), stateAfter)`.
Result is `((rowsAff, error), newState, loggedMessages)`. -/
def UpdateUser (db : DB) (findQ : Option User × Option String)
    (updQ : (Int × Option String) × DB) :
    (Int × Option String) × DB × List String :=
  match findQ.1 with
  | none => ((0, some "not found user"), db, [])
  | some _ =>
    match updQ.1.2 with
    | some e => ((0, some e), updQ.2, [e])
    | none =>
      if updQ.1.1 < 0 then
        ((0, some "no affected lines"), updQ.2, [])
      else
        ((updQ.1.1, none), updQ.2, [])

/-- `UpdateUser` run against a database state with honest queries. -/
def UpdateUserRun (db : DB) (userToUpdate : User) :
    (Int × Option String) × DB × List String :=
  UpdateUser db (findUserQuery db userToUpdate.id)
    ((countById db userToUpdate.id, none), updateNameEmail db userToUpdate)

/-- `UpdateRefreshTokenByEmail` from the source, parameterised by the driver
results of its two statements: `oneQ` is the `qm.Select("id")`-projected
lookup by email (a row or an error — sqlboiler's `One` never returns both
nil), and `upd` gives the update statement's driver report
`((rowsAff, err), stateAfter)` for the fetched row with its refresh token set.
Result is `((rowsAff, error), newState, loggedMessages)`. -/
def UpdateRefreshTokenByEmail (db : DB) (refreshToken : String)
    (oneQ : Except String User)
    (upd : User → (Int × Option String) × DB) :
    (Int × Option String) × DB × List String :=
  match oneQ with
  | .error e =>
    if e = noRowsMsg then
      ((0, some "not found user by e-mail"), db, [])
    else
      ((0, some e), db, [e])
  | .ok user =>
    let user' := { user with refreshToken := some refreshToken }
    let r := upd user'
    match r.1.2 with
    | some e => ((0, some e), r.2, [e])
    | none =>
      if r.1.1 < 0 then
        ((0, some "no affected lines"), r.2, [])
      else
        ((r.1.1, none), r.2, [])

/-- `UpdateRefreshTokenByEmail` run against a database state with honest
queries. -/
def UpdateRefreshTokenByEmailRun (db : DB) (email refreshToken : String) :
    (Int × Option String) × DB × List String :=
  UpdateRefreshTokenByEmail db refreshToken
    (match oneByEmail db email with
     | some u => .ok (selectId u)
     | none => .error noRowsMsg)
    (fun u => ((countById db u.id, none), updateTokenById db u.id u.refreshToken))

/-- `DeleteUserByID` from the source, parameterised by the driver pairs of its
two statements: `findQ` is the `FindUser` result (error component discarded by
the source: `user, _ :=`), `delQ` the delete statement's driver report.
Result is `((rowsAff, error), newState, loggedMessages)`. -/
def DeleteUserByID (db : DB) (findQ : Option User × Option String)
    (delQ : (Int × Option String) × DB) :
    (Int × Option String) × DB × List String :=
  match findQ.1 with
  | none => ((0, some "not found user"), db, [])
  | some _ =>
    match delQ.1.2 with
    | some e => ((0, some e), delQ.2, [e])
    | none =>
      if delQ.1.1 < 0 then
        ((0, some "no affected lines"), delQ.2, [])
      else
        ((delQ.1.1, none), delQ.2, [])

/-- `DeleteUserByID` run against a database state with honest queries. -/
def DeleteUserByIDRun (db : DB) (userId : Int) :
    (Int × Option String) × DB × List String :=
  DeleteUserByID db (findUserQuery db userId)
    ((countById db userId, none), deleteById db userId)

end UserModel

namespace UserModel

example : validateUserDataRun []
    { id := 0, name := "", email := "e", password := "secret1", refreshToken := none }
    = (false, "User name cannot be empty!") := by decide

example : validateUserDataRun []
    { id := 0, name := "n", email := "e", password := "secret", refreshToken := none }
    = (true, "") := by decide

example : validateUserDataRun []
    { id := 0, name := "n", email := "e", password := "short", refreshToken := none }
    = (false, "User password must be at least 6 characters!") := by decide

example : validateUserDataRun
    [{ id := 1, name := "a", email := "e", password := "secret1", refreshToken := none }]
    { id := 0, name := "n", email := "e", password := "secret1", refreshToken := none }
    = (false, "There is already a registered user with this email, try another email!") := by
  decide

/-- C1: `validateUserData` performs its checks in the fixed order — name
non-empty, email non-empty, password non-empty, password length at least 6,
then no existing user with the same email — short-circuiting on the first
failure with that check's message, and returns success with an empty message
if and only if every check passes. -/
theorem validateUserData_order_shortCircuit_iff (db : DB) (u : User) :
    (u.name = "" →
      validateUserDataRun db u = (false, "User name cannot be empty!")) ∧
    (u.name ≠ "" → u.email = "" →
      validateUserDataRun db u = (false, "User e-mail cannot be empty!")) ∧
    (u.name ≠ "" → u.email ≠ "" → u.password = "" →
      validateUserDataRun db u = (false, "User password cannot be empty!")) ∧
    (u.name ≠ "" → u.email ≠ "" → u.password ≠ "" → u.password.utf8ByteSize < 6 →
      validateUserDataRun db u = (false, "User password must be at least 6 characters!")) ∧
    (u.name ≠ "" → u.email ≠ "" → u.password ≠ "" → 6 ≤ u.password.utf8ByteSize →
      existsByEmail db u.email = true →
      validateUserDataRun db u =
        (false, "There is already a registered user with this email, try another email!")) ∧
    (validateUserDataRun db u = (true, "") ↔
      (u.name ≠ "" ∧ u.email ≠ "" ∧ u.password ≠ "" ∧ 6 ≤ u.password.utf8ByteSize ∧
        existsByEmail db u.email = false)) := by
  simp only [validateUserDataRun, validateUserData, existsQuery]
  by_cases h1 : u.name = "" <;> by_cases h2 : u.email = "" <;>
    by_cases h3 : u.password = "" <;> by_cases h4 : u.password.utf8ByteSize < 6 <;>
    by_cases h5 : existsByEmail db u.email <;>
    simp [h1, h2, h3, h4, h5, Nat.not_lt] <;> omega

/-- Witness for C1: the theorem instantiated at a concrete database and user
with a short password. -/
theorem validateUserData_order_shortCircuit_iff_witness :
    let db : DB := []
    let u : User := { id := 0, name := "n", email := "e", password := "abc", refreshToken := none }
    (u.name = "" →
      validateUserDataRun db u = (false, "User name cannot be empty!")) ∧
    (u.name ≠ "" → u.email = "" →
      validateUserDataRun db u = (false, "User e-mail cannot be empty!")) ∧
    (u.name ≠ "" → u.email ≠ "" → u.password = "" →
      validateUserDataRun db u = (false, "User password cannot be empty!")) ∧
    (u.name ≠ "" → u.email ≠ "" → u.password ≠ "" → u.password.utf8ByteSize < 6 →
      validateUserDataRun db u = (false, "User password must be at least 6 characters!")) ∧
    (u.name ≠ "" → u.email ≠ "" → u.password ≠ "" → 6 ≤ u.password.utf8ByteSize →
      existsByEmail db u.email = true →
      validateUserDataRun db u =
        (false, "There is already a registered user with this email, try another email!")) ∧
    (validateUserDataRun db u = (true, "") ↔
      (u.name ≠ "" ∧ u.email ≠ "" ∧ u.password ≠ "" ∧ 6 ≤ u.password.utf8ByteSize ∧
        existsByEmail db u.email = false)) :=
  validateUserData_order_shortCircuit_iff []
    { id := 0, name := "n", email := "e", password := "abc", refreshToken := none }

/-- Helper: when validation fails, `NewUser` returns the validation message
and leaves the state untouched. -/
theorem newUserRun_of_invalid (db : DB) (u : User)
    (h : (validateUserDataRun db u).1 = false) :
    NewUserRun db u = ((none, some (validateUserDataRun db u).2), db) := by
  have h' : (validateUserData u (existsQuery db u.email)).1 = false := h
  simp [NewUserRun, NewUser, validateUserDataRun, h']

/-- C2: whenever validation fails on a user record, `NewUser` returns an
error carrying the validation message and performs no insert: the stored set
of users is unchanged. -/
theorem NewUser_validation_failure (db : DB) (u : User)
    (h : (validateUserDataRun db u).1 = false) :
    NewUserRun db u = ((none, some (validateUserDataRun db u).2), db) :=
  newUserRun_of_invalid db u h

/-- Witness for C2: a user with an empty name fails validation; `NewUser`
returns the message and leaves the empty database empty. -/
theorem NewUser_validation_failure_witness :
    (validateUserDataRun []
        { id := 0, name := "", email := "e", password := "secret1", refreshToken := none }).1
      = false ∧
    NewUserRun []
        { id := 0, name := "", email := "e", password := "secret1", refreshToken := none }
      = ((none, some (validateUserDataRun []
          { id := 0, name := "", email := "e", password := "secret1", refreshToken := none }).2),
         []) :=
  ⟨by decide,
   NewUser_validation_failure []
     { id := 0, name := "", email := "e", password := "secret1", refreshToken := none }
     (by decide)⟩

/-- C7: a failed validation-gated create is idempotent — from a state on which
validation fails, the first run changes nothing and errors, and a second run
from the resulting state returns exactly the same result. -/
theorem NewUser_failed_create_idempotent (db : DB) (u : User)
    (h : (validateUserDataRun db u).1 = false) :
    (NewUserRun db u).2 = db ∧
    (NewUserRun db u).1 = (none, some (validateUserDataRun db u).2) ∧
    NewUserRun (NewUserRun db u).2 u = NewUserRun db u := by
  have h1 := newUserRun_of_invalid db u h
  refine ⟨by rw [h1], by rw [h1], ?_⟩
  rw [h1]
  exact h1

/-- Witness for C7: creating a user whose email is already registered fails
both times and inserts nothing either time. -/
theorem NewUser_failed_create_idempotent_witness :
    (validateUserDataRun
        [{ id := 1, name := "a", email := "e", password := "secret1", refreshToken := none }]
        { id := 0, name := "n", email := "e", password := "secret1", refreshToken := none }).1
      = false ∧
    ((NewUserRun
        [{ id := 1, name := "a", email := "e", password := "secret1", refreshToken := none }]
        { id := 0, name := "n", email := "e", password := "secret1", refreshToken := none }).2
      = [{ id := 1, name := "a", email := "e", password := "secret1", refreshToken := none }] ∧
    (NewUserRun
        [{ id := 1, name := "a", email := "e", password := "secret1", refreshToken := none }]
        { id := 0, name := "n", email := "e", password := "secret1", refreshToken := none }).1
      = (none, some (validateUserDataRun
          [{ id := 1, name := "a", email := "e", password := "secret1", refreshToken := none }]
          { id := 0, name := "n", email := "e", password := "secret1", refreshToken := none }).2) ∧
    NewUserRun
        (NewUserRun
          [{ id := 1, name := "a", email := "e", password := "secret1", refreshToken := none }]
          { id := 0, name := "n", email := "e", password := "secret1", refreshToken := none }).2
        { id := 0, name := "n", email := "e", password := "secret1", refreshToken := none }
      = NewUserRun
          [{ id := 1, name := "a", email := "e", password := "secret1", refreshToken := none }]
          { id := 0, name := "n", email := "e", password := "secret1", refreshToken := none }) :=
  ⟨by decide,
   NewUser_failed_create_idempotent
     [{ id := 1, name := "a", email := "e", password := "secret1", refreshToken := none }]
     { id := 0, name := "n", email := "e", password := "secret1", refreshToken := none }
     (by decide)⟩

/-- C9: the error of the existence-by-email query is discarded in
`validateUserData`. First conjunct: on a storage failure (sqlboiler's `Exists`
returns its zero value `false` together with the error `e`), a user passing
the field checks validates successfully, silently skipping the duplicate-email
check. Second conjunct: the result never depends on the error component of the
query at all. -/
theorem validateUserData_discards_exists_error (u : User) (e : String)
    (h1 : u.name ≠ "") (h2 : u.email ≠ "") (h3 : u.password ≠ "")
    (h4 : 6 ≤ u.password.utf8ByteSize) :
    validateUserData u (false, some e) = (true, "") ∧
    (∀ (v : User) (b : Bool) (err : String),
      validateUserData v (b, some err) = validateUserData v (b, none)) := by
  constructor
  · have h4' : ¬ u.password.utf8ByteSize < 6 := Nat.not_lt.mpr h4
    simp [validateUserData, h1, h2, h3, h4']
  · intro v b err
    rfl

/-- Witness for C9: a well-formed user validates successfully even though the
duplicate-email query failed with a storage error. -/
theorem validateUserData_discards_exists_error_witness :
    ("n" ≠ "" ∧ "e" ≠ "" ∧ "secret1" ≠ "" ∧
      6 ≤ String.utf8ByteSize "secret1") ∧
    validateUserData
        { id := 0, name := "n", email := "e", password := "secret1", refreshToken := none }
        (false, some "driver: bad connection") = (true, "") :=
  ⟨by decide,
   (validateUserData_discards_exists_error
     { id := 0, name := "n", email := "e", password := "secret1", refreshToken := none }
     "driver: bad connection" (by decide) (by decide) (by decide) (by decide)).1⟩

/-- C10: in `UpdateUser` and `DeleteUserByID` the error of the `FindUser`
lookup is discarded (`user, _ :=`) and only the nil-ness of the row is
checked: on any storage failure `e` during the lookup (driver pair
`(nil, some e)`), both operations report the not-found error
"not found user" instead of the storage error, and leave the state unchanged. -/
theorem update_delete_conflate_find_error (db : DB) (e : String)
    (updQ delQ : (Int × Option String) × DB) :
    UpdateUser db (none, some e) updQ = ((0, some "not found user"), db, []) ∧
    DeleteUserByID db (none, some e) delQ = ((0, some "not found user"), db, []) :=
  ⟨rfl, rfl⟩

/-- C4: when no stored user has the given id, `UpdateUser` and
`DeleteUserByID` both fail with the not-found error "not found user" and
leave the stored users unchanged. -/
theorem update_delete_notFound (db : DB) (u : User) (userId : Int)
    (h1 : ∀ r ∈ db, r.id ≠ u.id) (h2 : ∀ r ∈ db, r.id ≠ userId) :
    UpdateUserRun db u = ((0, some "not found user"), db, []) ∧
    DeleteUserByIDRun db userId = ((0, some "not found user"), db, []) := by
  have hf1 : db.find? (fun r => r.id = u.id) = none := by
    rw [List.find?_eq_none]
    intro r hr
    simpa using h1 r hr
  have hf2 : db.find? (fun r => r.id = userId) = none := by
    rw [List.find?_eq_none]
    intro r hr
    simpa using h2 r hr
  constructor
  · simp [UpdateUserRun, UpdateUser, findUserQuery, hf1]
  · simp [DeleteUserByIDRun, DeleteUserByID, findUserQuery, hf2]

/-- Witness for C4: updating user id 2 and deleting id 3 against a database
holding only id 1 both report "not found user" and change nothing. -/
theorem update_delete_notFound_witness :
    ((∀ r ∈ ([{ id := 1, name := "a", email := "e", password := "secret1",
                refreshToken := none }] : DB), r.id ≠ (2 : Int)) ∧
      (∀ r ∈ ([{ id := 1, name := "a", email := "e", password := "secret1",
                 refreshToken := none }] : DB), r.id ≠ (3 : Int))) ∧
    (UpdateUserRun
        [{ id := 1, name := "a", email := "e", password := "secret1", refreshToken := none }]
        { id := 2, name := "b", email := "f", password := "secret2", refreshToken := none }
      = ((0, some "not found user"),
         [{ id := 1, name := "a", email := "e", password := "secret1", refreshToken := none }],
         []) ∧
    DeleteUserByIDRun
        [{ id := 1, name := "a", email := "e", password := "secret1", refreshToken := none }]
        3
      = ((0, some "not found user"),
         [{ id := 1, name := "a", email := "e", password := "secret1", refreshToken := none }],
         [])) :=
  ⟨⟨by decide, by decide⟩,
   update_delete_notFound
     [{ id := 1, name := "a", email := "e", password := "secret1", refreshToken := none }]
     { id := 2, name := "b", email := "f", password := "secret2", refreshToken := none }
     3 (by decide) (by decide)⟩

/-- C6: the three row-affecting operations fail with the no-affected-lines
error exactly when the driver-reported affected-row count is negative; when
the driver reports a non-negative count they return it unchanged, and in the
honest semantics (where the count is a row count, hence non-negative) the
branch is never taken. -/
theorem noRowsAffected_iff_negative (db db' : DB) (found u : User)
    (userId : Int) (email tok : String) (n : Int) :
    ((UpdateUser db (some found, none) ((n, none), db')).1
        = (0, some "no affected lines") ↔ n < 0) ∧
    ((UpdateRefreshTokenByEmail db tok (.ok found) (fun _ => ((n, none), db'))).1
        = (0, some "no affected lines") ↔ n < 0) ∧
    ((DeleteUserByID db (some found, none) ((n, none), db')).1
        = (0, some "no affected lines") ↔ n < 0) ∧
    (0 ≤ n →
      (UpdateUser db (some found, none) ((n, none), db')).1 = (n, none) ∧
      (UpdateRefreshTokenByEmail db tok (.ok found) (fun _ => ((n, none), db'))).1 = (n, none) ∧
      (DeleteUserByID db (some found, none) ((n, none), db')).1 = (n, none)) ∧
    (UpdateUserRun db u).1.2 ≠ some "no affected lines" ∧
    (UpdateRefreshTokenByEmailRun db email tok).1.2 ≠ some "no affected lines" ∧
    (DeleteUserByIDRun db userId).1.2 ≠ some "no affected lines" := by
  have hcount : ∀ i : Int, ∀ d : DB, ¬ countById d i < 0 := by
    intro i d
    simp [countById]
  refine ⟨?_, ?_, ?_, ?_, ?_, ?_, ?_⟩
  · by_cases hn : n < 0 <;> simp [UpdateUser, hn]
  · by_cases hn : n < 0 <;> simp [UpdateRefreshTokenByEmail, hn]
  · by_cases hn : n < 0 <;> simp [DeleteUserByID, hn]
  · intro hn
    have hn' : ¬ n < 0 := Int.not_lt.mpr hn
    exact ⟨by simp [UpdateUser, hn'], by simp [UpdateRefreshTokenByEmail, hn'],
      by simp [DeleteUserByID, hn']⟩
  · cases hfind : db.find? (fun r => r.id = u.id) with
    | none => simp [UpdateUserRun, UpdateUser, findUserQuery, hfind]
    | some v => simp [UpdateUserRun, UpdateUser, findUserQuery, hfind, hcount]
  · cases hone : oneByEmail db email with
    | none => simp [UpdateRefreshTokenByEmailRun, UpdateRefreshTokenByEmail, noRowsMsg, hone]
    | some v => simp [UpdateRefreshTokenByEmailRun, UpdateRefreshTokenByEmail, hone, hcount]
  · cases hfind : db.find? (fun r => r.id = userId) with
    | none => simp [DeleteUserByIDRun, DeleteUserByID, findUserQuery, hfind]
    | some v => simp [DeleteUserByIDRun, DeleteUserByID, findUserQuery, hfind, hcount]

/-- Witness for C6: the theorem at a singleton database, a reported count of
one, and concrete operands; the hypothesis of the fourth conjunct is
discharged separately below. -/
theorem noRowsAffected_iff_negative_witness :
    ((UpdateUser []
        (some { id := 1, name := "a", email := "e", password := "secret1",
                refreshToken := none }, none) (((1 : Int), none), [])).1
        = (0, some "no affected lines") ↔ (1 : Int) < 0) ∧
    (0 ≤ (1 : Int)) ∧
    (UpdateUserRun []
        { id := 1, name := "a", email := "e", password := "secret1",
          refreshToken := none }).1.2 ≠ some "no affected lines" :=
  ⟨(noRowsAffected_iff_negative [] []
      { id := 1, name := "a", email := "e", password := "secret1", refreshToken := none }
      { id := 1, name := "a", email := "e", password := "secret1", refreshToken := none }
      1 "e" "t" 1).1,
   by decide,
   (noRowsAffected_iff_negative [] []
      { id := 1, name := "a", email := "e", password := "secret1", refreshToken := none }
      { id := 1, name := "a", email := "e", password := "secret1", refreshToken := none }
      1 "e" "t" 1).2.2.2.2.1⟩

/-- Helper: with pairwise-distinct emails, the lookup by email finds exactly
the member carrying that email. -/
theorem find?_email_of_pairwise (db : DB) (email : String) (u : User)
    (hU : db.Pairwise (fun a b => a.email ≠ b.email))
    (hu : u ∈ db) (he : u.email = email) :
    db.find? (fun v => v.email = email) = some u := by
  induction db with
  | nil => simp at hu
  | cons h t ih =>
    have hp := List.pairwise_cons.mp hU
    rcases List.mem_cons.mp hu with rfl | hmem
    · exact List.find?_cons_of_pos t (by simpa using he)
    · have hne : ¬ (h.email = email) := by
        rw [← he]
        exact hp.1 u hmem
      rw [List.find?_cons_of_neg t (by simpa using hne)]
      exact ih hp.2 hmem

/-- C3: against states obeying the one-user-per-email invariant,
`Authenticate` fails with the not-found error when no user matches the email,
fails with the password-mismatch error when the matching user's stored
password differs from the given one, and succeeds exactly when a user
matching the email exists with the given stored password. -/
theorem Authenticate_spec (db : DB) (email password : String)
    (hU : db.Pairwise (fun a b => a.email ≠ b.email)) :
    ((∀ u ∈ db, u.email ≠ email) →
      AuthenticateRun db email password
        = ((false, some "not found user by e-mail"), [])) ∧
    (∀ u ∈ db, u.email = email → u.password ≠ password →
      AuthenticateRun db email password
        = ((false, some "password don't match"), [])) ∧
    (AuthenticateRun db email password = ((true, none), []) ↔
      ∃ u ∈ db, u.email = email ∧ u.password = password) := by
  refine ⟨?_, ?_, ?_⟩
  · intro hnone
    have hf : db.find? (fun v => v.email = email) = none := by
      rw [List.find?_eq_none]
      intro v hv
      simpa using hnone v hv
    simp [AuthenticateRun, Authenticate, onePasswordQuery, oneByEmail, hf]
  · intro u hu he hpw
    have hf := find?_email_of_pairwise db email u hU hu he
    have hpw' : password ≠ u.password := fun hh => hpw hh.symm
    simp [AuthenticateRun, Authenticate, onePasswordQuery, oneByEmail, hf,
      selectPassword, noRowsMsg, hpw']
  · cases hf : db.find? (fun v => v.email = email) with
    | none =>
      constructor
      · intro hEq
        simp [AuthenticateRun, Authenticate, onePasswordQuery, oneByEmail, hf] at hEq
      · rintro ⟨u, hu, he, _⟩
        have := List.find?_eq_none.mp hf u hu
        simp [he] at this
    | some v =>
      have hv : v ∈ db := List.mem_of_find?_eq_some hf
      have hve : v.email = email := by simpa using List.find?_some hf
      by_cases hpw : v.password = password
      · constructor
        · intro _
          exact ⟨v, hv, hve, hpw⟩
        · intro _
          simp [AuthenticateRun, Authenticate, onePasswordQuery, oneByEmail, hf,
            selectPassword, noRowsMsg, hpw]
      · constructor
        · intro hEq
          have hpw' : password ≠ v.password := fun hh => hpw hh.symm
          simp [AuthenticateRun, Authenticate, onePasswordQuery, oneByEmail, hf,
            selectPassword, noRowsMsg, hpw'] at hEq
        · rintro ⟨u, hu, he, hupw⟩
          have h2 := find?_email_of_pairwise db email u hU hu he
          rw [hf] at h2
          have huv : v = u := Option.some.inj h2
          rw [← huv] at hupw
          exact absurd hupw hpw

/-- Witness for C3: a singleton database trivially obeys the invariant; the
theorem instantiated there. -/
theorem Authenticate_spec_witness :
    (([{ id := 1, name := "a", email := "e", password := "secret1",
         refreshToken := none }] : DB).Pairwise (fun a b => a.email ≠ b.email)) ∧
    (AuthenticateRun
        [{ id := 1, name := "a", email := "e", password := "secret1", refreshToken := none }]
        "e" "secret1" = ((true, none), []) ↔
      ∃ u ∈ ([{ id := 1, name := "a", email := "e", password := "secret1",
                refreshToken := none }] : DB),
        u.email = "e" ∧ u.password = "secret1") :=
  ⟨by decide,
   (Authenticate_spec
     [{ id := 1, name := "a", email := "e", password := "secret1", refreshToken := none }]
     "e" "secret1" (by decide)).2.2⟩

/-- Helper: a mapped list is pointwise related to the original when the
function realises the relation. -/
theorem forall₂_map_self {R : User → User → Prop} (f : User → User) (l : List User)
    (h : ∀ a ∈ l, R a (f a)) : List.Forall₂ R l (l.map f) := by
  induction l with
  | nil => exact List.Forall₂.nil
  | cons x t ih =>
    exact List.Forall₂.cons (h x (List.mem_cons_self x t))
      (ih fun a ha => h a (List.mem_cons_of_mem x ha))

/-- Helper: an affected-row count is a row count, never negative. -/
theorem countById_not_neg (db : DB) (i : Int) : ¬ countById db i < 0 := by
  simp [countById]

/-- C5: frame conditions of the two update operations. `UpdateUser` may
change only the name and email columns of rows matching the input's id (id,
password and refresh_token of every row are preserved, and rows with a
different id are untouched); `UpdateRefreshTokenByEmail` may change only the
refresh_token column of the row matching the email (id, name, email and
password of every row are preserved, rows not carrying the email are
untouched, and any changed row's token becomes the given one). Stated against
states with distinct ids, as a primary-key column guarantees. -/
theorem update_operations_frame (db : DB) (u : User) (email tok : String)
    (hids : (db.map User.id).Nodup) :
    List.Forall₂ (fun r r' =>
        r'.id = r.id ∧ r'.password = r.password ∧ r'.refreshToken = r.refreshToken ∧
        (r.id ≠ u.id → r' = r))
      db (UpdateUserRun db u).2.1 ∧
    List.Forall₂ (fun r r' =>
        r'.id = r.id ∧ r'.name = r.name ∧ r'.email = r.email ∧ r'.password = r.password ∧
        (r.email ≠ email → r' = r) ∧ (r' ≠ r → r'.refreshToken = some tok))
      db (UpdateRefreshTokenByEmailRun db email tok).2.1 := by
  constructor
  · cases hf : db.find? (fun r => r.id = u.id) with
    | none =>
      have hst : (UpdateUserRun db u).2.1 = db := by
        simp [UpdateUserRun, UpdateUser, findUserQuery, hf]
      rw [hst, List.forall₂_same]
      intro x _
      exact ⟨rfl, rfl, rfl, fun _ => rfl⟩
    | some v =>
      have hst : (UpdateUserRun db u).2.1 = updateNameEmail db u := by
        simp [UpdateUserRun, UpdateUser, findUserQuery, hf, countById_not_neg db u.id]
      rw [hst, updateNameEmail]
      apply forall₂_map_self
      intro a _
      by_cases hid : a.id = u.id
      · rw [if_pos hid]
        exact ⟨rfl, rfl, rfl, fun hne => absurd hid hne⟩
      · rw [if_neg hid]
        exact ⟨rfl, rfl, rfl, fun _ => rfl⟩
  · cases hone : oneByEmail db email with
    | none =>
      have hst : (UpdateRefreshTokenByEmailRun db email tok).2.1 = db := by
        simp [UpdateRefreshTokenByEmailRun, UpdateRefreshTokenByEmail, hone]
      rw [hst, List.forall₂_same]
      intro x _
      exact ⟨rfl, rfl, rfl, rfl, fun _ => rfl, fun hne => absurd rfl hne⟩
    | some v =>
      have hv : v ∈ db := List.mem_of_find?_eq_some hone
      have hve : v.email = email := by simpa using List.find?_some hone
      have hst : (UpdateRefreshTokenByEmailRun db email tok).2.1
          = updateTokenById db v.id (some tok) := by
        simp [UpdateRefreshTokenByEmailRun, UpdateRefreshTokenByEmail, hone, selectId,
          updateTokenById, countById_not_neg db v.id]
      rw [hst, updateTokenById]
      apply forall₂_map_self
      intro a ha
      by_cases hid : a.id = v.id
      · have hav : a = v := List.inj_on_of_nodup_map hids ha hv hid
        rw [if_pos hid]
        refine ⟨rfl, rfl, rfl, rfl, ?_, fun _ => rfl⟩
        intro hne
        have : a.email = email := by rw [hav]; exact hve
        exact absurd this hne
      · rw [if_neg hid]
        exact ⟨rfl, rfl, rfl, rfl, fun _ => rfl, fun hne => absurd rfl hne⟩

/-- Witness for C5: the theorem at a two-row database with distinct ids. -/
theorem update_operations_frame_witness :
    (([{ id := 1, name := "a", email := "e", password := "secret1", refreshToken := none },
       { id := 2, name := "b", email := "f", password := "secret2", refreshToken := none }]
        : DB).map User.id).Nodup ∧
    (List.Forall₂ (fun r r' =>
        r'.id = r.id ∧ r'.password = r.password ∧ r'.refreshToken = r.refreshToken ∧
        (r.id ≠ ({ id := 1, name := "c", email := "g", password := "x", refreshToken := none }
            : User).id → r' = r))
      [{ id := 1, name := "a", email := "e", password := "secret1", refreshToken := none },
       { id := 2, name := "b", email := "f", password := "secret2", refreshToken := none }]
      (UpdateUserRun
        [{ id := 1, name := "a", email := "e", password := "secret1", refreshToken := none },
         { id := 2, name := "b", email := "f", password := "secret2", refreshToken := none }]
        { id := 1, name := "c", email := "g", password := "x", refreshToken := none }).2.1 ∧
    List.Forall₂ (fun r r' =>
        r'.id = r.id ∧ r'.name = r.name ∧ r'.email = r.email ∧ r'.password = r.password ∧
        (r.email ≠ "f" → r' = r) ∧ (r' ≠ r → r'.refreshToken = some "tok"))
      [{ id := 1, name := "a", email := "e", password := "secret1", refreshToken := none },
       { id := 2, name := "b", email := "f", password := "secret2", refreshToken := none }]
      (UpdateRefreshTokenByEmailRun
        [{ id := 1, name := "a", email := "e", password := "secret1", refreshToken := none },
         { id := 2, name := "b", email := "f", password := "secret2", refreshToken := none }]
        "f" "tok").2.1) :=
  ⟨by decide,
   update_operations_frame
     [{ id := 1, name := "a", email := "e", password := "secret1", refreshToken := none },
      { id := 2, name := "b", email := "f", password := "secret2", refreshToken := none }]
     { id := 1, name := "c", email := "g", password := "x", refreshToken := none }
     "f" "tok" (by decide)⟩

/-- Counterexample for C8: at the concrete storage error
"tcp: connection reset", `Authenticate` hands the caller the driver error
verbatim — the returned failure is the raw error, not a wrapped typed
failure (it is logged once and not swallowed, but the claim's "wrapped"
part fails). -/
theorem Authenticate_storage_error_raw_counterexample :
    Authenticate (none, some "tcp: connection reset") "pw"
      = ((false, some "tcp: connection reset"), ["tcp: connection reset"]) := by
  decide

/-- C8 (amended): for every database error other than not-found arising in
`Authenticate` (and likewise in `GetUserByID`), the error is logged exactly
once at the point of detection and then returned to the caller raw
(verbatim, unwrapped), not swallowed. -/
theorem storage_error_logged_once_returned_raw (e pw : String) (uq fq : Option User)
    (h : e ≠ noRowsMsg) :
    Authenticate (uq, some e) pw = ((false, some e), [e]) ∧
    GetUserByID (fq, some e) = ((none, some e), [e]) := by
  constructor
  · simp [Authenticate, h]
  · rfl

/-- Witness for C8 (amended): the theorem at a concrete storage error. -/
theorem storage_error_logged_once_returned_raw_witness :
    ("driver: other failure" ≠ noRowsMsg) ∧
    (Authenticate (none, some "driver: other failure") "pw"
        = ((false, some "driver: other failure"), ["driver: other failure"]) ∧
      GetUserByID (none, some "driver: other failure")
        = ((none, some "driver: other failure"), ["driver: other failure"])) :=
  ⟨by decide,
   storage_error_logged_once_returned_raw "driver: other failure" "pw" none none
     (by decide)⟩

end UserModel
